import Mathlib

/-!
Verification of the pcapAI query-orchestration subsystem against its
natural-language specification.

The Python sources are embedded shallowly:
* `src/tools/filter.py` (class `Filter`) as pure functions over a model of
  the JSON-like packet dictionaries;
* `src/session_manager.py` (`SessionManager.set_pcap_file`,
  `SessionManager.set_protocol_filter`) as explicit state transitions on a
  `Session` record, with the external collaborators (pcap parsing, the
  per-protocol handler classes) passed in as function parameters;
* `src/ai_query_handler.py` (`AIQueryHandler.generate_offline_response` and
  the retry loop of `AIQueryHandler.query`) as a pure response builder and a
  trace-producing interpretation of the attempt loop, where the outcome of
  each network attempt is an input;
* `src/packet_parser.py` (`PacketParser.parse_packets_to_json`) as a map
  over the enumerated input batch, with per-record translation modelled as
  an `Option`-valued function (an exception is `none`).

Python dictionaries are modelled as association lists (insertion-ordered,
unique keys), Python strings as `String`, and Python truthiness / `str()` /
`.lower()` are modelled explicitly below.  Code paths where the source would
raise on a value of unexpected type (e.g. calling `.lower()` on a non-string
`highest_layer`) are embedded by treating such values as their falsy
defaults; the data produced by the repository's own parser only puts strings
there.
-/

namespace PcapAI

/-- A Python value as it occurs in the parsed-packet JSON dictionaries:
a string, an int, a nested dict, or `None`. -/
inductive PyVal where
  | str (s : String)
  | int (n : Int)
  | dict (fields : List (String × PyVal))
  | pynone

/-- Python truthiness: `""`, `0`, `{}` and `None` are falsy. -/
def PyVal.truthy : PyVal → Bool
  | .str s => !s.isEmpty
  | .int n => n != 0
  | .dict fs => !fs.isEmpty
  | .pynone => false

/-- Python `a or b`: `a` if truthy, else `b`. -/
def pyOr (a b : PyVal) : PyVal := if a.truthy then a else b

/-- Python `value == some_string`: true only for an equal string
(comparison of an int, dict or `None` with a string is `False`). -/
def PyVal.eqStr : PyVal → String → Bool
  | .str t, s => t == s
  | _, _ => false

/-- Python `isinstance(value, (str, int))`. -/
def PyVal.isStrOrInt : PyVal → Bool
  | .str _ => true
  | .int _ => true
  | _ => false

/-- Python `str(value)` for the scalar values the filter code applies it to
(strings and ints; the other constructors do not reach `str()` guarded by
`isinstance(value, (str, int))`, and are rendered as in Python for
completeness). -/
def PyVal.pyStr : PyVal → String
  | .str s => s
  | .int n => toString n
  | .dict _ => ""
  | .pynone => "None"

/-- Python `dict.get(key)` (default `None`); association-list lookup. -/
def pyGet (fields : List (String × PyVal)) (k : String) : PyVal :=
  match fields.lookup k with
  | some v => v
  | none => PyVal.pynone

/-- `dict.get(key)` on a value expected to be a dict (`None` otherwise). -/
def PyVal.getField : PyVal → String → PyVal
  | .dict fs, k => pyGet fs k
  | _, _ => PyVal.pynone

/-- Python `dict.get(key, "")` where the value is used as a string
(a non-string value is embedded as the falsy default `""`). -/
def pyGetStrD (fields : List (String × PyVal)) (k : String) : String :=
  match fields.lookup k with
  | some (.str s) => s
  | _ => ""

/-- Python `s.lower()` (ASCII, as produced by the repository's parser). -/
def pyLower (s : String) : String := ⟨s.data.map Char.toLower⟩

/-- Python `s.upper()`. -/
def pyUpper (s : String) : String := ⟨s.data.map Char.toUpper⟩

/-- Does `needle` occur as a contiguous run inside the character list? -/
def charsContain (needle : List Char) : List Char → Bool
  | [] => needle.isEmpty
  | c :: rest => needle.isPrefixOf (c :: rest) || charsContain needle rest

/-- Python substring test `needle in haystack`. -/
def pyContains (needle haystack : String) : Bool :=
  charsContain needle.data haystack.data

/-- A structured packet record as produced by `PacketParser`: a `layers`
dict (layer name → layer value, normally a dict of fields), a `metadata`
dict, and the remaining top-level keys (everything the Python dict holds
besides `"layers"` and `"metadata"`, e.g. `"packet_index"`). -/
structure Packet where
  layers : List (String × PyVal)
  metadata : List (String × PyVal)
  top : List (String × PyVal)

/-- An element of an `analysis_data["packets"]` list: the filter code guards
every packet with `isinstance(packet, dict)`, so a non-dict element is kept
abstract. -/
inductive PacketVal where
  | dict (p : Packet)
  | nondict

/-- The `analysis_data` dictionary as consumed by the filter tools and by
`generate_offline_response`, with the `.get` defaults of the source built
in (`packets` → `[]`, `protocols` → `{}`, `total_packets` → `0`,
`top_source_ips` → `{}`). -/
structure AnalysisData where
  packets : List PacketVal := []
  protocols : List (String × Nat) := []
  total_packets : Nat := 0
  top_source_ips : List (String × Nat) := []

/-! ## `src/tools/filter.py` — the `Filter` tool class -/

/-- The `filtered_data` dictionary built by each filter method.  The echo
fields (`protocol_filter`, `source_ip_filter`, `operation_filter`) are
`Option`s because each method only includes the keys it mentions, and
`filter_by_ip` / `filter_by_operation` store `None` for an absent protocol
filter. -/
structure FilteredData where
  total_packets : Nat
  filter_type : String
  protocol_filter : Option String := none
  source_ip_filter : Option String := none
  operation_filter : Option String := none
  packets : List PacketVal

/-- The result dictionary of `Filter.execute_tool` and the three filter
methods: `status` / `message` / `packets_filtered` always, the echo fields
and `filtered_data` on success only. -/
structure ToolResult where
  status : String
  message : String
  packets_filtered : Nat
  protocol_filter : Option String := none
  source_ip_filter : Option String := none
  operation_filter : Option String := none
  filtered_data : Option FilteredData := none

/-- The tool-call `arguments` dictionary (only these three keys are read,
each with `arguments.get`). -/
structure Args where
  protocol : Option String := none
  source_ip : Option String := none
  operation : Option String := none

/-- The protocol-match test shared verbatim by `filter_by_protocol`,
`filter_by_ip` and `filter_by_operation`: the lowercased filter is a
lowercased layer name, or equals the lowercased `metadata["highest_layer"]`,
or is `"smb2"` with an `"smb"` layer present, or is `"http"` with an
`"http"`/`"https"` layer present. -/
def protocolMatch (protocol_filter : String) (p : Packet) : Bool :=
  let lowKeys := p.layers.map fun kv => pyLower kv.1
  lowKeys.contains protocol_filter
    || pyLower (pyGetStrD p.metadata "highest_layer") == protocol_filter
    || (protocol_filter == "smb2" && lowKeys.contains "smb")
    || (protocol_filter == "http"
          && p.layers.any fun kv =>
            pyLower kv.1 == "http" || pyLower kv.1 == "https")

/-- The per-packet predicate of `Filter.filter_by_protocol` (a non-dict
packet never matches). -/
def packetMatchesProtocol (protocol_filter : String) : PacketVal → Bool
  | .dict p => protocolMatch protocol_filter p
  | .nondict => false

/-- `Filter.filter_by_protocol`. -/
def filter_by_protocol (arguments : Args) (analysis_data : AnalysisData) :
    ToolResult :=
  let packets := analysis_data.packets
  let protocol_filter := pyLower (arguments.protocol.getD "")
  if protocol_filter.isEmpty then
    { status := "error"
      message := "Protocol is required for this filter"
      packets_filtered := 0 }
  else
    let filtered_packets := packets.filter (packetMatchesProtocol protocol_filter)
    let filtered_data : FilteredData :=
      { total_packets := filtered_packets.length
        filter_type := pyUpper protocol_filter ++ " Protocol"
        protocol_filter := some protocol_filter
        packets := filtered_packets }
    { status := "success"
      message := "Filtered " ++ toString filtered_packets.length ++ " "
        ++ pyUpper protocol_filter ++ " packets"
      packets_filtered := filtered_packets.length
      protocol_filter := some protocol_filter
      filtered_data := some filtered_data }

/-- Source-IP extraction of `Filter.filter_by_ip`: `layers["ip"]["src"] or
layers["ip"]["src_host"]` when an `"ip"` layer exists, then the
`metadata["src_ip"] or metadata["source_ip"]` fallback, then the top-level
`packet.get("src_ip") or packet.get("source_ip")` fallback, each fallback
taken only while the previous value is falsy. -/
def packetSourceIp (p : Packet) : PyVal :=
  let fromIpLayer :=
    if (p.layers.lookup "ip").isSome then
      pyOr ((pyGet p.layers "ip").getField "src")
        ((pyGet p.layers "ip").getField "src_host")
    else PyVal.pynone
  let fromMeta :=
    if fromIpLayer.truthy then fromIpLayer
    else pyOr (pyGet p.metadata "src_ip") (pyGet p.metadata "source_ip")
  if fromMeta.truthy then fromMeta
  else pyOr (pyGet p.top "src_ip") (pyGet p.top "source_ip")

/-- The per-packet predicate of `Filter.filter_by_ip`: the optional protocol
gate followed by the source-IP comparison. -/
def packetMatchesIp (source_ip_filter protocol_filter : String) :
    PacketVal → Bool
  | .dict p =>
      (protocol_filter.isEmpty || protocolMatch protocol_filter p)
        && (packetSourceIp p).eqStr source_ip_filter
  | .nondict => false

/-- `Filter.filter_by_ip`.  The required `source_ip` argument is fetched
with a `None` default and rejected when falsy (`None` or `""`). -/
def filter_by_ip (arguments : Args) (analysis_data : AnalysisData) :
    ToolResult :=
  let packets := analysis_data.packets
  let protocol_filter := pyLower (arguments.protocol.getD "")
  match arguments.source_ip with
  | none =>
    { status := "error"
      message := "Source IP address is required for this filter"
      packets_filtered := 0 }
  | some source_ip_filter =>
    if source_ip_filter.isEmpty then
      { status := "error"
        message := "Source IP address is required for this filter"
        packets_filtered := 0 }
    else
      let filtered_packets :=
        packets.filter (packetMatchesIp source_ip_filter protocol_filter)
      let protocol_text :=
        if protocol_filter.isEmpty then "" else " " ++ pyUpper protocol_filter
      let filtered_data : FilteredData :=
        { total_packets := filtered_packets.length
          filter_type :=
            (protocol_text ++ " Packets from Source IP: "
              ++ source_ip_filter).trim
          source_ip_filter := some source_ip_filter
          protocol_filter :=
            if protocol_filter.isEmpty then none else some protocol_filter
          packets := filtered_packets }
      { status := "success"
        message := "Filtered " ++ toString filtered_packets.length
          ++ pyLower protocol_text ++ " packets from source IP "
          ++ source_ip_filter
        packets_filtered := filtered_packets.length
        source_ip_filter := some source_ip_filter
        protocol_filter := some protocol_filter
        filtered_data := some filtered_data }

/-- The fixed field-name list searched first by `filter_by_operation`. -/
def operationFieldNames : List String :=
  ["procedure", "operation", "opcode", "command", "method", "request_type"]

/-- Operation match inside one layer value of `filter_by_operation`: only a
dict layer is inspected; a match is a hit on one of the well-known operation
fields, or on any string/int field value, by lowercased substring. -/
def layerOperationMatch (operation_filter : String) : PyVal → Bool
  | .dict fs =>
      (operationFieldNames.any fun f =>
        (fs.lookup f).isSome
          && pyContains operation_filter (pyLower (pyGet fs f).pyStr))
      || fs.any fun kv =>
          kv.2.isStrOrInt && pyContains operation_filter (pyLower kv.2.pyStr)
  | _ => false

/-- The per-packet predicate of `Filter.filter_by_operation`: the optional
protocol gate, then the layer search, then the `metadata` values, then the
top-level values (keys other than `"layers"`/`"metadata"`). -/
def packetMatchesOperation (operation_filter protocol_filter : String) :
    PacketVal → Bool
  | .dict p =>
      (protocol_filter.isEmpty || protocolMatch protocol_filter p)
        && ((p.layers.any fun kv => layerOperationMatch operation_filter kv.2)
          || (p.metadata.any fun kv =>
              kv.2.isStrOrInt
                && pyContains operation_filter (pyLower kv.2.pyStr))
          || (p.top.any fun kv =>
              kv.2.isStrOrInt
                && pyContains operation_filter (pyLower kv.2.pyStr)))
  | .nondict => false

/-- `Filter.filter_by_operation`. -/
def filter_by_operation (arguments : Args) (analysis_data : AnalysisData) :
    ToolResult :=
  let packets := analysis_data.packets
  let operation_filter := pyLower (arguments.operation.getD "")
  let protocol_filter := pyLower (arguments.protocol.getD "")
  if operation_filter.isEmpty then
    { status := "error"
      message := "Operation is required for this filter"
      packets_filtered := 0 }
  else
    let filtered_packets :=
      packets.filter (packetMatchesOperation operation_filter protocol_filter)
    let protocol_text :=
      if protocol_filter.isEmpty then "" else " " ++ pyUpper protocol_filter
    let filtered_data : FilteredData :=
      { total_packets := filtered_packets.length
        filter_type :=
          (protocol_text ++ " " ++ pyUpper operation_filter
            ++ " Operations").trim
        operation_filter := some operation_filter
        protocol_filter :=
          if protocol_filter.isEmpty then none else some protocol_filter
        packets := filtered_packets }
    { status := "success"
      message := "Filtered " ++ toString filtered_packets.length
        ++ pyLower protocol_text ++ " " ++ pyUpper operation_filter
        ++ " operation packets"
      packets_filtered := filtered_packets.length
      operation_filter := some operation_filter
      protocol_filter := some protocol_filter
      filtered_data := some filtered_data }

/-- `Filter.execute_tool`: dispatch on the tool name, unknown names produce
an error result (never an exception — the embedding is a total function,
as is the source, whose only raise sites are inside the guarded callees). -/
def execute_tool (tool_name : String) (arguments : Args)
    (analysis_data : AnalysisData) : ToolResult :=
  if tool_name == "filter_packets_by_protocol" then
    filter_by_protocol arguments analysis_data
  else if tool_name == "filter_packets_by_ip" then
    filter_by_ip arguments analysis_data
  else if tool_name == "filter_packets_by_operation" then
    filter_by_operation arguments analysis_data
  else
    { status := "error"
      message := "Unknown filter tool: " ++ tool_name
      packets_filtered := 0 }

/-! ## `src/session_manager.py` — `SessionManager`

The mutable fields touched by `set_pcap_file` and `set_protocol_filter` are
collected in `Session`.  External collaborators become parameters:
* `parse : String → Option ParsedRecords` is `PcapAnalyzer(path).parse_pcap()`
  (`none` models the raised exception caught by `set_pcap_file`);
* `selectHandler : String → HandlerKind` is `_initialize_ai_handler`'s
  size-threshold choice for a given file;
* `filterRun name file` is `protocol_classes[name].filter_packets(pcap_file)`
  and `analyzeRun name pkts` the matching `analyze` call — the per-protocol
  handler classes are collaborators behind `protocols/base.py`; each is
  `Option`-valued, `none` modelling a raised exception, which the
  surrounding `try/except` of `set_protocol_filter` turns into a `False`
  return.
Disk effects (`save_session`, prints) have no bearing on the claims and are
not part of the state. -/

/-- The two AI handler classes `_initialize_ai_handler` can cache. -/
inductive HandlerKind where
  | standard
  | toolCalling
deriving DecidableEq

/-- The parsed full record set.  `set_protocol_filter` treats it as the
packet list (the source also accepts a JSON string or a `{"packets": …}`
dict and normalises to this list; the normalised form is embedded). -/
abbrev ParsedRecords := List PacketVal

/-- The `SessionManager` fields mutated by the two operations under
study. -/
structure Session where
  pcap_file : Option String := none
  pcap_analyzer : Option String := none
  parsed_data : Option ParsedRecords := none
  filtered_packets : Option (List PacketVal) := none
  analysis_data : Option AnalysisData := none
  last_protocols : List String := []
  openai_key : Option String := none
  ai_handler : Option HandlerKind := none

/-- The keys of the module-level `protocol_classes` dict. -/
def protocolClassNames : List String := ["NFS", "SMB", "HTTP"]

/-- `SessionManager.set_pcap_file`: cache hit when the path is unchanged and
data is already parsed; otherwise the path and analyzer are stored first,
then parsing is attempted — on success the AI handler is re-selected (when a
key is present) and `True` returned, on failure (caught exception, `none`)
`False` is returned with the already-overwritten path left in place. -/
def set_pcap_file (parse : String → Option ParsedRecords)
    (selectHandler : String → HandlerKind) (s : Session) (path : String) :
    Session × Bool :=
  if s.pcap_file == some path && s.parsed_data.isSome then
    (s, true)
  else
    let s := { s with pcap_file := some path, pcap_analyzer := some path }
    match parse path with
    | some records =>
      let s := { s with parsed_data := some records }
      let s :=
        if s.openai_key.isSome then
          { s with ai_handler := some (selectHandler path) }
        else s
      (s, true)
    | none => (s, false)

/-- The `analysis_data` built on the no-handler / no-protocol paths of
`set_protocol_filter` (`{"packets": self.filtered_packets}`). -/
def packetsOnlyAnalysis (pkts : List PacketVal) : AnalysisData :=
  { packets := pkts }

/-- `SessionManager.set_protocol_filter`: cache hit (no recomputation) when
the selection equals `last_protocols` and a filtered set exists; otherwise
`last_protocols` is updated, a falsy `parsed_data` aborts with `False`, and
the filtered set and analysis data are recomputed — through the protocol
handler for the first selected protocol when one is registered, or as the
unfiltered packet list otherwise.  The recomputation sits in a `try/except`
(`session_manager.py:182-223`): an exception raised by the handler's
`filter_packets` (modelled as `filterRun … = none`) is caught before
`filtered_packets` is assigned and the call returns `False`; an exception
raised by the subsequent `analyze` (`analyzeRun … = none`) is caught after
`filtered_packets` was assigned but before `analysis_data`, and the call
likewise returns `False`. -/
def set_protocol_filter
    (filterRun : String → Option String → Option (List PacketVal))
    (analyzeRun : String → List PacketVal → Option AnalysisData)
    (s : Session) (protocols : List String) : Session × Bool :=
  if s.last_protocols == protocols && s.filtered_packets.isSome then
    (s, true)
  else
    let s := { s with last_protocols := protocols }
    match s.parsed_data with
    | none => (s, false)
    | some packets =>
      if packets.isEmpty then (s, false)
      else
        match protocols with
        | [] =>
          ({ s with filtered_packets := some packets,
                    analysis_data := some (packetsOnlyAnalysis packets) },
            true)
        | proto_name :: _ =>
          if protocolClassNames.contains proto_name then
            match filterRun proto_name s.pcap_file with
            | none => (s, false)
            | some fp =>
              let s := { s with filtered_packets := some fp }
              match analyzeRun proto_name fp with
              | none => (s, false)
              | some ad => ({ s with analysis_data := some ad }, true)
          else
            ({ s with filtered_packets := some packets,
                      analysis_data := some (packetsOnlyAnalysis packets) },
              true)

/-- Python truthiness of `self.parsed_data` as tested by
`set_protocol_filter` (`None` and `[]` are falsy). -/
def Session.parsedTruthy (s : Session) : Bool :=
  match s.parsed_data with
  | some l => !l.isEmpty
  | none => false

/-- Run a sequence of `set_protocol_filter` calls, collecting for each call
the recomputation flag: `true` when the call recomputed (or attempted to
recompute) the filtered set, `false` on a cache hit. -/
def runFilterCalls
    (filterRun : String → Option String → Option (List PacketVal))
    (analyzeRun : String → List PacketVal → Option AnalysisData)
    (s : Session) : List (List String) → List Bool
  | [] => []
  | ps :: rest =>
    let step := set_protocol_filter filterRun analyzeRun s ps
    let recomputed := !(s.last_protocols == ps && s.filtered_packets.isSome)
    recomputed :: runFilterCalls filterRun analyzeRun step.1 rest

/-! ## `src/ai_query_handler.py` — `AIQueryHandler` -/

/-- `AIQueryHandler.generate_offline_response`: a pure template over the
aggregate statistics, branching on keyword cues in the lowercased
question. -/
def generate_offline_response (user_question : String)
    (analysis_data : AnalysisData) : String :=
  let protocols := analysis_data.protocols
  let total_packets := analysis_data.total_packets
  let top_ips := analysis_data.top_source_ips
  if pyContains "protocol" (pyLower user_question) then
    "Based on the packet analysis, the following protocols were detected in this trace:\n\n"
      ++ "• " ++ String.intercalate ", " (protocols.map Prod.fst) ++ "\n\n"
      ++ "Protocol distribution:\n"
      ++ String.intercalate "\n"
          (protocols.map fun pc =>
            "• " ++ pc.1 ++ ": " ++ toString pc.2 ++ " packets")
      ++ "\n\nTotal packets analyzed: " ++ toString total_packets
  else if pyContains "ip" (pyLower user_question)
      || pyContains "address" (pyLower user_question) then
    "Top source IP addresses in this trace:\n\n"
      ++ String.intercalate "\n"
          ((top_ips.take 5).map fun pc =>
            "• " ++ pc.1 ++ ": " ++ toString pc.2 ++ " packets")
      ++ "\n\nTotal packets analyzed: " ++ toString total_packets
  else
    "OFFLINE MODE - AI analysis unavailable.\n\n"
      ++ "Basic packet trace summary:\n"
      ++ "• Total packets: " ++ toString total_packets ++ "\n"
      ++ "• Protocols found: "
      ++ String.intercalate ", " (protocols.map Prod.fst) ++ "\n"
      ++ "• Top source IPs: "
      ++ String.intercalate ", " ((top_ips.take 3).map Prod.fst) ++ "\n\n"
      ++ "For AI analysis, ensure NetApp LLM proxy access is configured."

/-- The outcome the environment produces for one `requests.post` attempt of
the query loop: a 200 response with a body, a non-success HTTP status, a
`requests.RequestException`, or any other exception. -/
inductive Outcome where
  | success (body : String)
  | httpError
  | transportErr
  | otherError

/-- An observable event of one `query` call: a request sent to the remote
service, or a `time.sleep` of the given number of seconds. -/
inductive Event where
  | send
  | sleep (seconds : Nat)
deriving DecidableEq

/-- The `for attempt in range(max_retries)` loop of `AIQueryHandler.query`
(the loop of `ToolCallingHandler.query` is line-for-line the same shape),
interpreted over the list of remaining attempt outcomes (the call passes
the `max_retries = 3` slots).  A 200 response returns its body; a
non-success status retries immediately, except on the final attempt where
it falls back offline; a transport error sleeps 2 seconds and retries,
except on the final attempt where it falls back offline; any other
exception falls back offline at once.  The `[]` case is the fallback line
after the loop. -/
def attemptLoop (user_question : String) (analysis_data : AnalysisData) :
    List Outcome → List Event × String
  | [] => ([], generate_offline_response user_question analysis_data)
  | o :: rest =>
    match o with
    | .success body => ([.send], body)
    | .httpError =>
      if rest.isEmpty then
        ([.send], generate_offline_response user_question analysis_data)
      else
        let next := attemptLoop user_question analysis_data rest
        (.send :: next.1, next.2)
    | .transportErr =>
      if rest.isEmpty then
        ([.send], generate_offline_response user_question analysis_data)
      else
        let next := attemptLoop user_question analysis_data rest
        (.send :: .sleep 2 :: next.1, next.2)
    | .otherError =>
      ([.send], generate_offline_response user_question analysis_data)

/-- `AIQueryHandler.query`: the connectivity probe result and the three
attempt outcomes are inputs; a failed probe skips every remote request and
answers offline, a successful probe runs the retry loop. -/
def ai_query (probeOk : Bool) (o1 o2 o3 : Outcome) (user_question : String)
    (analysis_data : AnalysisData) : List Event × String :=
  if probeOk then
    attemptLoop user_question analysis_data [o1, o2, o3]
  else
    ([], generate_offline_response user_question analysis_data)

/-! ## `src/packet_parser.py` — `PacketParser.parse_packets_to_json` -/

/-- One element of the list serialised by `parse_packets_to_json`: a parsed
record tagged with its `packet_index`, or the error placeholder
`{"packet_index": i, "error": …}` appended when `parse_packet` raised. -/
inductive BatchEntry (β : Type) where
  | ok (packet_index : Nat) (record : β)
  | errorPlaceholder (packet_index : Nat)

/-- `PacketParser.parse_packets_to_json` without the final `json.dumps`:
`for i, packet in enumerate(packets)`, each packet translated by
`parse_packet` (an exception is `none`) and tagged with its index, failures
replaced by the error placeholder at the same position. -/
def parse_packets_to_json {α β : Type} (parse : α → Option β)
    (packets : List α) : List (BatchEntry β) :=
  packets.enum.map fun ip =>
    match parse ip.2 with
    | some record => .ok ip.1 record
    | none => .errorPlaceholder ip.1

/-! ## Concrete example data used by counterexamples and witnesses -/

/-- A structured HTTP packet record in the shape `PacketParser` emits. -/
def httpPacket : Packet :=
  { layers :=
      [("eth", .dict []),
       ("ip", .dict [("src", .str "10.0.0.1"), ("dst", .str "10.0.0.2")]),
       ("http", .dict [("method", .str "GET"), ("uri", .str "/index")])]
    metadata := [("highest_layer", .str "HTTP"), ("number", .int 1)]
    top := [("packet_index", .int 0)] }

/-- An `analysis_data` working set with one HTTP record and one non-dict
entry. -/
def sampleAnalysis : AnalysisData :=
  { packets := [.dict httpPacket, .nondict] }

/-- The 3-packet working-set summary of the spec's concrete scenario: two
HTTP records and one DNS record. -/
def threePacketSummary : AnalysisData :=
  { protocols := [("HTTP", 2), ("DNS", 1)], total_packets := 3 }

/-- A session holding a parsed file `a.pcap` with a cached filtered set and
cached analysis summary. -/
def cachedSession : Session :=
  { pcap_file := some "a.pcap"
    pcap_analyzer := some "a.pcap"
    parsed_data := some [.dict httpPacket]
    filtered_packets := some [.dict httpPacket]
    analysis_data := some (packetsOnlyAnalysis [.dict httpPacket])
    last_protocols := ["HTTP"]
    openai_key := some "key"
    ai_handler := some .standard }

/-- A session that has parsed data and nothing else. -/
def parsedSession : Session := { parsed_data := some [.nondict] }

/-- A parser collaborator that always succeeds. -/
def parseAlways : String → Option ParsedRecords := fun _ => some [.nondict]

/-- A parser collaborator that always raises (parse failure). -/
def parseNever : String → Option ParsedRecords := fun _ => none

/-- A handler selection that always picks the standard handler. -/
def selectStandard : String → HandlerKind := fun _ => .standard

/-- A protocol-handler filter collaborator that returns normally with the
empty set. -/
def filterRunNil : String → Option String → Option (List PacketVal) :=
  fun _ _ => some []

/-- A protocol-handler filter collaborator whose `filter_packets` always
raises. -/
def filterRunRaise : String → Option String → Option (List PacketVal) :=
  fun _ _ => none

/-- A protocol-handler analyze collaborator that returns normally, wrapping
the packet list. -/
def analyzeBasic : String → List PacketVal → Option AnalysisData :=
  fun _ pkts => some { packets := pkts }

/-- A record translator over `Nat` "packets" that fails exactly on the
value 99. -/
def parseExample : Nat → Option Nat :=
  fun n => if n == 99 then none else some (n + 1)

/-- An attempt outcome that lets the retry loop continue to the next
attempt or fall back offline on the final one: a non-success HTTP status or
a transport error. -/
def isRetryFailure (o : Outcome) : Prop :=
  o = Outcome.httpError ∨ o = Outcome.transportErr

/-! ## Theorems for the claims -/

/-- C1 counterexample: `set_pcap_file` called with a fresh path on a session
holding a cached Filtered Record Set and Derived Summary succeeds, yet both
caches are still populated after the call — the claim's "after the call both
caches are empty" is false at this input. -/
theorem set_pcap_file_keeps_stale_filtered_cache :
    (set_pcap_file parseAlways selectStandard cachedSession "b.pcap").2 = true
    ∧ ((set_pcap_file parseAlways selectStandard cachedSession
        "b.pcap").1).filtered_packets.isSome = true
    ∧ ((set_pcap_file parseAlways selectStandard cachedSession
        "b.pcap").1).analysis_data.isSome = true
    ∧ ((set_pcap_file parseAlways selectStandard cachedSession
        "b.pcap").1).pcap_file = some "b.pcap" := by
  decide

/-- C1 amended: `set_pcap_file` never invalidates the cached Filtered Record
Set, the cached Derived Summary, or the stored protocol selection — on every
path (cache hit, successful re-parse, failed parse) those three fields are
returned unchanged, so a capture-file change alone never triggers a filter
recomputation. -/
theorem set_pcap_file_preserves_filter_caches
    (parse : String → Option ParsedRecords)
    (selectHandler : String → HandlerKind) (s : Session) (path : String) :
    ((set_pcap_file parse selectHandler s path).1).filtered_packets
        = s.filtered_packets
    ∧ ((set_pcap_file parse selectHandler s path).1).analysis_data
        = s.analysis_data
    ∧ ((set_pcap_file parse selectHandler s path).1).last_protocols
        = s.last_protocols := by
  unfold set_pcap_file
  split
  · exact ⟨rfl, rfl, rfl⟩
  · cases parse path
    · exact ⟨rfl, rfl, rfl⟩
    · dsimp only
      split <;> exact ⟨rfl, rfl, rfl⟩

/-- C3 counterexample: on a session whose capture file is `a.pcap`, a
`set_pcap_file` call whose parsing fails reports the failure but leaves the
stored capture-file identity overwritten with the new path — the claim's
"leaves all prior session state, including the stored capture-file identity,
unchanged" is false at this input. -/
theorem set_pcap_file_failure_changes_identity :
    (set_pcap_file parseNever selectStandard cachedSession "bad.pcap").2
        = false
    ∧ ((set_pcap_file parseNever selectStandard cachedSession
        "bad.pcap").1).pcap_file = some "bad.pcap"
    ∧ ((set_pcap_file parseNever selectStandard cachedSession
        "bad.pcap").1).pcap_file ≠ cachedSession.pcap_file := by
  decide

/-- C3 amended: when parsing fails on a non-cache-hit call, `set_pcap_file`
reports the failure (returns `False`) and leaves the previously parsed
record set, both caches, the protocol selection, the key and the handler
unchanged — but the stored capture-file path (and analyzer) have already
been overwritten with the failing path. -/
theorem set_pcap_file_parse_failure_atomic_except_path
    (parse : String → Option ParsedRecords)
    (selectHandler : String → HandlerKind) (s : Session) (path : String)
    (hfail : parse path = none)
    (hmiss : (s.pcap_file == some path && s.parsed_data.isSome) = false) :
    (set_pcap_file parse selectHandler s path).2 = false
    ∧ ((set_pcap_file parse selectHandler s path).1).parsed_data
        = s.parsed_data
    ∧ ((set_pcap_file parse selectHandler s path).1).filtered_packets
        = s.filtered_packets
    ∧ ((set_pcap_file parse selectHandler s path).1).analysis_data
        = s.analysis_data
    ∧ ((set_pcap_file parse selectHandler s path).1).last_protocols
        = s.last_protocols
    ∧ ((set_pcap_file parse selectHandler s path).1).openai_key
        = s.openai_key
    ∧ ((set_pcap_file parse selectHandler s path).1).ai_handler
        = s.ai_handler
    ∧ ((set_pcap_file parse selectHandler s path).1).pcap_file = some path
    := by
  unfold set_pcap_file
  rw [hmiss, hfail]
  simp

/-- C3 witness: the amended theorem applied to the concrete failing call of
the counterexample input. -/
theorem set_pcap_file_parse_failure_atomic_except_path_witness :
    (set_pcap_file parseNever selectStandard cachedSession "bad.pcap").2
        = false
    ∧ ((set_pcap_file parseNever selectStandard cachedSession
        "bad.pcap").1).parsed_data = cachedSession.parsed_data
    ∧ ((set_pcap_file parseNever selectStandard cachedSession
        "bad.pcap").1).filtered_packets = cachedSession.filtered_packets
    ∧ ((set_pcap_file parseNever selectStandard cachedSession
        "bad.pcap").1).analysis_data = cachedSession.analysis_data
    ∧ ((set_pcap_file parseNever selectStandard cachedSession
        "bad.pcap").1).last_protocols = cachedSession.last_protocols
    ∧ ((set_pcap_file parseNever selectStandard cachedSession
        "bad.pcap").1).openai_key = cachedSession.openai_key
    ∧ ((set_pcap_file parseNever selectStandard cachedSession
        "bad.pcap").1).ai_handler = cachedSession.ai_handler
    ∧ ((set_pcap_file parseNever selectStandard cachedSession
        "bad.pcap").1).pcap_file = some "bad.pcap" :=
  set_pcap_file_parse_failure_atomic_except_path parseNever selectStandard
    cachedSession "bad.pcap" rfl (by decide)

/-- C4 counterexample: the operation filter called with the unmapped pair
`(protocol=http, operation=frobnicate)` and no raw expression returns a
`"success"` result (with zero matching packets), not an `InvalidParameters`
error — there is no lookup table and no raw-expression path in
`filter_by_operation`. -/
theorem filter_by_operation_unmapped_pair_succeeds :
    (filter_by_operation
        { protocol := some "http", operation := some "frobnicate" }
        sampleAnalysis).status = "success"
    ∧ (filter_by_operation
        { protocol := some "http", operation := some "frobnicate" }
        sampleAnalysis).packets_filtered = 0
    ∧ (filter_by_operation
        { protocol := some "http", operation := some "frobnicate" }
        sampleAnalysis).status ≠ "error" := by
  decide

/-- C4 amended: `filter_by_operation` resolves no lookup table and accepts
no raw expression; every request with a non-empty operation — mapped pairs
such as `(nfs, write)` and unmapped pairs such as `(http, frobnicate)`
alike — produces a `"success"` result whose packets are selected by
substring matching, and the only error it reports is a missing or empty
operation argument. -/
theorem filter_by_operation_no_lookup_table (arguments : Args)
    (analysis_data : AnalysisData)
    (hop : (pyLower (arguments.operation.getD "")).isEmpty = false) :
    (filter_by_operation arguments analysis_data).status = "success" := by
  simp [filter_by_operation, hop]

/-- C4 witness: the amended theorem applied to the mapped pair
`(protocol=nfs, operation=write)`, which also yields a `"success"` result
rather than a lookup-table expression. -/
theorem filter_by_operation_no_lookup_table_witness :
    (filter_by_operation { protocol := some "nfs", operation := some "write" }
        sampleAnalysis).status = "success" :=
  filter_by_operation_no_lookup_table
    { protocol := some "nfs", operation := some "write" } sampleAnalysis
    (by decide)

/-- C5: for the 3-packet working-set summary with two HTTP records and one
DNS record, the offline responder's answer to "what protocols are present"
(the path taken when the remote service is unavailable) contains the
substring "HTTP", the substring "DNS", and the literal packet count "3". -/
theorem offline_response_protocol_scenario :
    pyContains "HTTP"
        (generate_offline_response "what protocols are present"
          threePacketSummary) = true
    ∧ pyContains "DNS"
        (generate_offline_response "what protocols are present"
          threePacketSummary) = true
    ∧ pyContains "3"
        (generate_offline_response "what protocols are present"
          threePacketSummary) = true := by
  decide

/-- A concatenation with a non-empty left part is non-empty. -/
theorem append_ne_empty (a b : String) (ha : a ≠ "") : a ++ b ≠ "" := by
  intro h
  apply ha
  have hdata := congrArg String.data h
  rw [String.data_append] at hdata
  have : a.data = [] := (List.append_eq_nil.mp hdata).1
  exact String.ext this

/-- Every branch of the offline responder starts with a fixed non-empty
template line, so the offline answer is never the empty string. -/
theorem generate_offline_response_ne_empty (user_question : String)
    (analysis_data : AnalysisData) :
    generate_offline_response user_question analysis_data ≠ "" := by
  unfold generate_offline_response
  split
  · repeat' apply append_ne_empty
    decide
  split
  · repeat' apply append_ne_empty
    decide
  · repeat' apply append_ne_empty
    decide

/-- C8: when the connectivity probe fails, `query` performs no remote
request at all (the event trace is empty) and returns the deterministic
offline answer, which is a non-empty string. -/
theorem ai_query_probe_failure_offline (o1 o2 o3 : Outcome)
    (user_question : String) (analysis_data : AnalysisData) :
    (ai_query false o1 o2 o3 user_question analysis_data).1 = []
    ∧ (ai_query false o1 o2 o3 user_question analysis_data).2
        = generate_offline_response user_question analysis_data
    ∧ (ai_query false o1 o2 o3 user_question analysis_data).2 ≠ "" :=
  ⟨rfl, rfl, generate_offline_response_ne_empty user_question analysis_data⟩

/-- C9: each of the three filter tools is a pure function of its inputs
(the source only reads `analysis_data` and appends packet references to a
fresh list, mutating nothing), and whenever a call produces a
`filtered_data` object, its packet list is an order-preserving subsequence
of the input packet list: every output element is an input element and
their relative order is the input order. -/
theorem filter_tools_output_subsequence (arguments : Args)
    (analysis_data : AnalysisData) :
    (∀ fd, (filter_by_protocol arguments analysis_data).filtered_data
        = some fd → fd.packets.Sublist analysis_data.packets)
    ∧ (∀ fd, (filter_by_ip arguments analysis_data).filtered_data
        = some fd → fd.packets.Sublist analysis_data.packets)
    ∧ (∀ fd, (filter_by_operation arguments analysis_data).filtered_data
        = some fd → fd.packets.Sublist analysis_data.packets) := by
  refine ⟨?_, ?_, ?_⟩
  · intro fd h
    unfold filter_by_protocol at h
    dsimp only at h
    split at h
    · exact absurd h (by simp)
    · injection h with h2
      subst h2
      exact List.filter_sublist _
  · intro fd h
    unfold filter_by_ip at h
    dsimp only at h
    split at h
    · exact absurd h (by simp)
    · split at h
      · exact absurd h (by simp)
      · injection h with h2
        subst h2
        exact List.filter_sublist _
  · intro fd h
    unfold filter_by_operation at h
    dsimp only at h
    split at h
    · exact absurd h (by simp)
    · injection h with h2
      subst h2
      exact List.filter_sublist _

/-- C9 witness: on the sample working set, the protocol filter for `http`
produces a packet list that is a subsequence of the input packet list. -/
theorem filter_tools_output_subsequence_witness :
    (((filter_by_protocol { protocol := some "http" }
        sampleAnalysis).filtered_data.map FilteredData.packets).getD
      []).Sublist sampleAnalysis.packets :=
  (filter_tools_output_subsequence { protocol := some "http" }
    sampleAnalysis).1 _ rfl

/-- C10: for each known tool, `execute_tool` reports `"error"` exactly when
the tool's required argument is missing or empty; every `"success"` result
carries a `filtered_data` whose `total_packets` equals both the reported
`packets_filtered` and the length of its packet list; and an unknown tool
name yields an error result rather than an exception (the dispatcher is a
total function). -/
theorem execute_tool_contract (arguments : Args)
    (analysis_data : AnalysisData) :
    ((execute_tool "filter_packets_by_protocol" arguments
        analysis_data).status = "error"
      ↔ (pyLower (arguments.protocol.getD "")).isEmpty = true)
    ∧ ((execute_tool "filter_packets_by_ip" arguments
        analysis_data).status = "error"
      ↔ (arguments.source_ip = none ∨ arguments.source_ip = some ""))
    ∧ ((execute_tool "filter_packets_by_operation" arguments
        analysis_data).status = "error"
      ↔ (pyLower (arguments.operation.getD "")).isEmpty = true)
    ∧ (∀ tool_name,
        (execute_tool tool_name arguments analysis_data).status = "success" →
        ∃ fd, (execute_tool tool_name arguments analysis_data).filtered_data
            = some fd
          ∧ (execute_tool tool_name arguments
              analysis_data).packets_filtered = fd.total_packets
          ∧ fd.total_packets = fd.packets.length)
    ∧ (∀ tool_name, tool_name ≠ "filter_packets_by_protocol" →
        tool_name ≠ "filter_packets_by_ip" →
        tool_name ≠ "filter_packets_by_operation" →
        (execute_tool tool_name arguments analysis_data).status = "error")
    := by
  refine ⟨?_, ?_, ?_, ?_, ?_⟩
  · cases hemp : (pyLower (arguments.protocol.getD "")).isEmpty <;>
      simp [execute_tool, filter_by_protocol, hemp]
  · match hsi : arguments.source_ip with
    | none => simp [execute_tool, filter_by_ip, hsi]
    | some s =>
      cases hemp : s.isEmpty <;>
        simp [execute_tool, filter_by_ip, hsi, hemp] <;>
        simp [← String.isEmpty_iff, hemp]
  · cases hemp : (pyLower (arguments.operation.getD "")).isEmpty <;>
      simp [execute_tool, filter_by_operation, hemp]
  · intro tool_name h
    by_cases h1 : tool_name = "filter_packets_by_protocol"
    · subst h1
      unfold execute_tool filter_by_protocol at h ⊢
      rw [if_pos (by decide)] at h ⊢
      by_cases hemp : (pyLower (arguments.protocol.getD "")).isEmpty = true
      · rw [if_pos hemp] at h
        simp at h
      · rw [if_neg hemp] at h ⊢
        exact ⟨_, rfl, rfl, rfl⟩
    · by_cases h2 : tool_name = "filter_packets_by_ip"
      · subst h2
        unfold execute_tool filter_by_ip at h ⊢
        rw [if_neg (by decide), if_pos (by decide)] at h ⊢
        match hsi : arguments.source_ip with
        | none =>
          simp only [hsi] at h
          simp at h
        | some s =>
          simp only [hsi] at h ⊢
          by_cases hemp : s.isEmpty = true
          · rw [if_pos hemp] at h
            simp at h
          · rw [if_neg hemp] at h ⊢
            exact ⟨_, rfl, rfl, rfl⟩
      · by_cases h3 : tool_name = "filter_packets_by_operation"
        · subst h3
          unfold execute_tool filter_by_operation at h ⊢
          rw [if_neg (by decide), if_neg (by decide), if_pos (by decide)]
            at h ⊢
          by_cases hemp :
              (pyLower (arguments.operation.getD "")).isEmpty = true
          · rw [if_pos hemp] at h
            simp at h
          · rw [if_neg hemp] at h ⊢
            exact ⟨_, rfl, rfl, rfl⟩
        · unfold execute_tool at h
          rw [if_neg (by simp [h1]), if_neg (by simp [h2]),
            if_neg (by simp [h3])] at h
          simp at h
  · intro tool_name h1 h2 h3
    unfold execute_tool
    rw [if_neg (by simp [h1]), if_neg (by simp [h2]), if_neg (by simp [h3])]

/-- C10 witness: on concrete inputs, a missing protocol argument is an
error, an unknown tool name is an error, and a successful protocol filter
reports counts consistent with its `filtered_data`. -/
theorem execute_tool_contract_witness :
    ((execute_tool "filter_packets_by_protocol" {} sampleAnalysis).status
        = "error"
      ↔ (pyLower ((Args.mk none none none).protocol.getD "")).isEmpty = true)
    ∧ (execute_tool "frobnicate_packets" {} sampleAnalysis).status
        = "error" :=
  ⟨(execute_tool_contract {} sampleAnalysis).1,
    (execute_tool_contract {} sampleAnalysis).2.2.2.2 "frobnicate_packets"
      (by decide) (by decide) (by decide)⟩

/-- C6: a record batch in which exactly one packet fails conversion
translates to an output list of the same length as the input, with the
error placeholder carrying the failing packet's original index at that
packet's original position, and every other element correctly translated
in place. -/
theorem parse_packets_partial_failure {α β : Type} (parse : α → Option β)
    (packets : List α) (j : Nat) (pj : α) (hj : packets[j]? = some pj)
    (hfail : parse pj = none)
    (hothers : ∀ i pi, packets[i]? = some pi → i ≠ j →
      (parse pi).isSome = true) :
    (parse_packets_to_json parse packets).length = packets.length
    ∧ (parse_packets_to_json parse packets)[j]? =
        some (.errorPlaceholder j)
    ∧ (∀ i pi, packets[i]? = some pi → i ≠ j →
        ∃ r, parse pi = some r
          ∧ (parse_packets_to_json parse packets)[i]? = some (.ok i r)) := by
  refine ⟨?_, ?_, ?_⟩
  · simp [parse_packets_to_json]
  · simp [parse_packets_to_json, List.getElem?_enum, hj, hfail]
  · intro i pi hi hne
    obtain ⟨r, hr⟩ := Option.isSome_iff_exists.mp (hothers i pi hi hne)
    exact ⟨r, hr,
      by simp [parse_packets_to_json, List.getElem?_enum, hi, hr]⟩

/-- C6 witness: the theorem applied to the batch `[1, 99, 3]` under a
translator failing exactly on 99. -/
theorem parse_packets_partial_failure_witness :
    (parse_packets_to_json parseExample [1, 99, 3]).length = 3
    ∧ (parse_packets_to_json parseExample [1, 99, 3])[1]? =
        some (.errorPlaceholder 1) := by
  have h := parse_packets_partial_failure parseExample [1, 99, 3] 1 99
    (by decide) (by decide)
    (by
      intro i pi hi hne
      match i with
      | 0 =>
        have : 1 = pi := by simpa using hi
        subst this
        decide
      | 1 => exact absurd rfl hne
      | 2 =>
        have : 3 = pi := by simpa using hi
        subst this
        decide
      | n + 3 => simp at hi)
  exact ⟨h.1, h.2.1⟩

/-- C7: with a successful connectivity probe, `query` sends the remote
request at most 3 times; every wait in the trace is the fixed 2-second one
(no exponential backoff, no jitter); a transport error on the first attempt
is followed by the 2-second wait and the retry's send; a transport error on
the second attempt likewise ends the trace with send, wait 2, send; and when
the final attempt meets a non-success status or transport error after
retryable failures, the handler returns the offline fallback response
instead of raising. -/
theorem ai_query_retry_policy (o1 o2 o3 : Outcome) (user_question : String)
    (analysis_data : AnalysisData) :
    ((ai_query true o1 o2 o3 user_question analysis_data).1.count
        Event.send ≤ 3)
    ∧ (∀ n, Event.sleep n ∈
        (ai_query true o1 o2 o3 user_question analysis_data).1 → n = 2)
    ∧ (o1 = Outcome.transportErr →
        (ai_query true o1 o2 o3 user_question analysis_data).1.take 3
          = [Event.send, Event.sleep 2, Event.send])
    ∧ (isRetryFailure o1 → o2 = Outcome.transportErr →
        (ai_query true o1 o2 o3 user_question analysis_data).1.drop
            ((ai_query true o1 o2 o3 user_question analysis_data).1.length
              - 3)
          = [Event.send, Event.sleep 2, Event.send])
    ∧ (isRetryFailure o1 → isRetryFailure o2 → isRetryFailure o3 →
        (ai_query true o1 o2 o3 user_question analysis_data).2
          = generate_offline_response user_question analysis_data) := by
  cases o1 <;> cases o2 <;> cases o3 <;>
    simp [ai_query, attemptLoop, isRetryFailure, List.count_cons]

/-- C7 witness: transport errors on the first two attempts and a
non-success status on the third yield the offline fallback, with the
2-second wait recorded after the first transport error. -/
theorem ai_query_retry_policy_witness :
    (ai_query true Outcome.transportErr Outcome.transportErr
        Outcome.httpError "q" {}).2 = generate_offline_response "q" {}
    ∧ (ai_query true Outcome.transportErr Outcome.transportErr
        Outcome.httpError "q" {}).1.take 3
        = [Event.send, Event.sleep 2, Event.send] := by
  have h := ai_query_retry_policy Outcome.transportErr Outcome.transportErr
    Outcome.httpError "q" {}
  exact ⟨h.2.2.2.2 (Or.inr rfl) (Or.inr rfl) (Or.inl rfl), h.2.2.1 rfl⟩

/-- `Session.parsedTruthy` depends only on `parsed_data`. -/
theorem parsedTruthy_congr {s s' : Session}
    (h : s'.parsed_data = s.parsed_data) :
    s'.parsedTruthy = s.parsedTruthy := by
  unfold Session.parsedTruthy
  rw [h]

/-- After a `set_protocol_filter` call on a session with (truthy) parsed
data whose handler collaborators return normally, the stored selection
equals the requested one, a filtered set exists, and the parsed data is
untouched. -/
theorem set_protocol_filter_state
    (filterRun : String → Option String → Option (List PacketVal))
    (analyzeRun : String → List PacketVal → Option AnalysisData)
    (s : Session) (protocols : List String)
    (hfr : ∀ p f, (filterRun p f).isSome = true)
    (har : ∀ p l, (analyzeRun p l).isSome = true)
    (hp : s.parsedTruthy = true) :
    ((set_protocol_filter filterRun analyzeRun s protocols).1).last_protocols
        = protocols
    ∧ ((set_protocol_filter filterRun analyzeRun s
        protocols).1).filtered_packets.isSome = true
    ∧ ((set_protocol_filter filterRun analyzeRun s
        protocols).1).parsed_data = s.parsed_data := by
  obtain ⟨packets, hps, hpe⟩ :
      ∃ packets, s.parsed_data = some packets ∧ packets.isEmpty = false := by
    unfold Session.parsedTruthy at hp
    match hx : s.parsed_data with
    | none => rw [hx] at hp; exact absurd hp (by simp)
    | some l => rw [hx] at hp; exact ⟨l, rfl, by simpa using hp⟩
  unfold set_protocol_filter
  split
  · rename_i hcond
    obtain ⟨hbeq, hsome⟩ := Bool.and_eq_true_iff.mp hcond
    exact ⟨eq_of_beq hbeq, hsome, rfl⟩
  · cases protocols with
    | nil => simp [hps, hpe]
    | cons proto_name tail =>
      obtain ⟨fp, hfp⟩ :=
        Option.isSome_iff_exists.mp (hfr proto_name s.pcap_file)
      obtain ⟨ad, had⟩ := Option.isSome_iff_exists.mp (har proto_name fp)
      simp only [hps, hpe]
      simp [hfp, had]
      split <;> simp

/-- C2 counterexample: on a freshly parsed session, when the protocol
handler's `filter_packets` raises, the first `set_protocol_filter(["NFS"])`
call fails with `False` leaving `filtered_packets` unset, so an immediately
repeated identical selection recomputes again (flag `true` at position 1
although the selection is unchanged) and the second call is not a reported
cache hit — refuting "recomputed only if the selection differs" and "the
second call being a cache hit". -/
theorem set_protocol_filter_repeat_recompute :
    (runFilterCalls filterRunRaise analyzeBasic parsedSession
        [["NFS"], ["NFS"]]).getD 1 false = true
    ∧ [["NFS"], ["NFS"]].getD (1 : Nat) [] = [["NFS"], ["NFS"]].getD 0 []
    ∧ (set_protocol_filter filterRunRaise analyzeBasic
        (set_protocol_filter filterRunRaise analyzeBasic parsedSession
          ["NFS"]).1 ["NFS"]).2 = false := by
  decide

/-- C2 amended: on a session with parsed data, provided every invoked
protocol-handler `filter_packets` and `analyze` call returns normally, the
Filtered Record Set is recomputed at call `i+1` exactly when the requested
selection differs from the selection of call `i`; in particular a repeated
selection then makes the second call a cache hit, so repeating a selection
twice triggers exactly one filter execution.  (When a recomputation fails
before a filtered set is stored, the next call recomputes even for an
identical selection.) -/
theorem set_protocol_filter_cache_correct
    (filterRun : String → Option String → Option (List PacketVal))
    (analyzeRun : String → List PacketVal → Option AnalysisData)
    (hfr : ∀ p f, (filterRun p f).isSome = true)
    (har : ∀ p l, (analyzeRun p l).isSome = true) :
    ∀ (calls : List (List String)) (s : Session),
      s.parsedTruthy = true → ∀ i, i + 1 < calls.length →
      ((runFilterCalls filterRun analyzeRun s calls).getD (i + 1) false
          = true
        ↔ calls.getD (i + 1) [] ≠ calls.getD i []) := by
  intro calls
  induction calls with
  | nil => intro s hp i hi; simp at hi
  | cons ps rest ih =>
    intro s hp i hi
    have hstate :=
      set_protocol_filter_state filterRun analyzeRun s ps hfr har hp
    have hp' := (parsedTruthy_congr hstate.2.2).trans hp
    cases i with
    | zero =>
      cases rest with
      | nil => simp at hi
      | cons q rest2 =>
        show (runFilterCalls filterRun analyzeRun _ (q :: rest2)).getD 0
            false = true ↔ q ≠ ps
        unfold runFilterCalls
        rw [List.getD_cons_zero]
        rw [hstate.1, hstate.2.1]
        simp only [Bool.and_true, Bool.not_eq_eq_eq_not, Bool.not_true,
          beq_eq_false_iff_ne, ne_eq, Bool.not_eq_true]
        exact not_congr eq_comm
    | succ i2 =>
      show (runFilterCalls filterRun analyzeRun s (ps :: rest)).getD
          (i2 + 2) false = true ↔ rest.getD (i2 + 1) [] ≠ rest.getD i2 []
      unfold runFilterCalls
      rw [List.getD_cons_succ]
      exact ih _ hp' i2 (by simpa using hi)

/-- C2 witness: on a freshly parsed session with handlers that return
normally, the second of two consecutive `set_protocol_filter` calls with
the same selection is a cache hit (no recomputation). -/
theorem set_protocol_filter_cache_correct_witness :
    (runFilterCalls filterRunNil analyzeBasic parsedSession
        [["NFS"], ["NFS"]]).getD 1 false = true
      ↔ [["NFS"], ["NFS"]].getD 1 [] ≠ [["NFS"], ["NFS"]].getD 0 [] :=
  set_protocol_filter_cache_correct filterRunNil analyzeBasic
    (fun _ _ => rfl) (fun _ _ => rfl)
    [["NFS"], ["NFS"]] parsedSession (by decide) 0 (by decide)

/-- C8 witness: the probe-failure theorem applied at concrete outcomes and
the three-packet working set. -/
theorem ai_query_probe_failure_offline_witness :
    (ai_query false Outcome.httpError Outcome.httpError Outcome.httpError
        "hello" threePacketSummary).1 = []
    ∧ (ai_query false Outcome.httpError Outcome.httpError Outcome.httpError
        "hello" threePacketSummary).2
        = generate_offline_response "hello" threePacketSummary
    ∧ (ai_query false Outcome.httpError Outcome.httpError Outcome.httpError
        "hello" threePacketSummary).2 ≠ "" :=
  ai_query_probe_failure_offline Outcome.httpError Outcome.httpError
    Outcome.httpError "hello" threePacketSummary

end PcapAI
